import Mathlib

/-
Verification of the pricing engine in src/cal.rs: the pump.fun bonding-curve
quote functions, the fee calculator, and the account-state decoder.

Machine integers are modelled as Nat with explicit reduction `% U64` at each
Rust `as u64` cast, and Rust's `saturating_sub` as Nat truncated subtraction.
u128 intermediates never overflow (products of two values < 2^64 are < 2^128),
so u128 arithmetic is modelled by plain Nat arithmetic; the one u128 addition
that could in principle overflow (`a + b` inside `ceil_div`) is bounded by
(2^64-1)^2 + 10^4 < 2^128 on every reachable input.

A second, `checked_` family of definitions returns `Option`: it yields `none`
exactly where the Rust code would hit a division by zero (a panic in both
build profiles), an overflowing u64 addition (a panic in debug builds, a wrap
in release builds), or a lossy `as u64` narrowing. `isSome` of a checked
function states that none of those events is reached.
-/

/-- 2^64, the modulus of u64 arithmetic (written as a literal for omega). -/
def U64 : Nat := 18446744073709551616

/-- A Solana public key: 32 raw bytes. `Pubkey::default()` is all zeroes. -/
abbrev Pubkey := List Nat

def Pubkey.def32 : Pubkey := List.replicate 32 0

/-- Global state from pump.fun program (struct Global in cal.rs). -/
structure Global where
  initial_virtual_token_reserves : Nat
  initial_virtual_sol_reserves : Nat
  initial_real_token_reserves : Nat
  token_total_supply : Nat
  fee_basis_points : Nat
  creator_fee_basis_points : Nat
  deriving Repr, DecidableEq

/-- Bonding curve state (struct BondingCurve in cal.rs). -/
structure BondingCurve where
  virtual_token_reserves : Nat
  virtual_sol_reserves : Nat
  real_token_reserves : Nat
  real_sol_reserves : Nat
  token_total_supply : Nat
  complete : Bool
  creator : Pubkey
  deriving Repr, DecidableEq

/-- `Global::default()`: the hard-coded pump.fun global values. -/
def Global.def6 : Global :=
  { initial_virtual_token_reserves := 1073000000000000
    initial_virtual_sol_reserves := 30000000000
    initial_real_token_reserves := 793100000000000
    token_total_supply := 1000000000000000
    fee_basis_points := 100
    creator_fee_basis_points := 100 }

/-- `new_bonding_curve`: synthesize a fresh curve from global state. -/
def new_bonding_curve (global : Global) : BondingCurve :=
  { virtual_token_reserves := global.initial_virtual_token_reserves
    virtual_sol_reserves := global.initial_virtual_sol_reserves
    real_token_reserves := global.initial_real_token_reserves
    real_sol_reserves := 0
    token_total_supply := global.token_total_supply
    complete := false
    creator := Pubkey.def32 }

/-- `ceil_div(a, b) = (a + b - 1) / b` over u128 (never overflows on
reachable inputs, see header comment). -/
def ceil_div (a b : Nat) : Nat := (a + b - 1) / b

/-- `compute_fee`: ceiling fee in basis points; the final `as u64` cast is
the `% U64`. -/
def compute_fee (amount fee_basis_points : Nat) : Nat :=
  ceil_div (amount * fee_basis_points) 10000 % U64

/-- `get_fee`: platform fee plus (conditionally) creator fee. The u64 `+`
wraps modulo 2^64 in release builds; debug builds panic instead, which the
checked model below accounts for. -/
def get_fee (global : Global) (bonding_curve : BondingCurve) (amount : Nat)
    (is_new_bonding_curve : Bool) : Nat :=
  let platform_fee := compute_fee amount global.fee_basis_points
  let creator_fee :=
    if is_new_bonding_curve = true ∨ bonding_curve.creator ≠ Pubkey.def32 then
      compute_fee amount global.creator_fee_basis_points
    else 0
  (platform_fee + creator_fee) % U64

/-- The `match bonding_curve { Some(bc) => (bc.clone(), false), None =>
(new_bonding_curve(global), true) }` shared by the three quote functions. -/
def resolve_curve (global : Global) (bonding_curve : Option BondingCurve) :
    BondingCurve × Bool :=
  match bonding_curve with
  | some bc => (bc, false)
  | none => (new_bonding_curve global, true)

/-- `get_tokens_for_sol` (Quote A, buy forward). -/
def get_tokens_for_sol (global : Global) (bonding_curve : Option BondingCurve)
    (sol_amount : Nat) : Nat :=
  if sol_amount = 0 then 0
  else
    let curve := (resolve_curve global bonding_curve).1
    let is_new := (resolve_curve global bonding_curve).2
    if curve.virtual_token_reserves = 0 then 0
    else
      let fee := get_fee global curve sol_amount is_new
      let sol_after_fee := sol_amount - fee
      if sol_after_fee = 0 then 0
      else
        let tokens_out := curve.virtual_token_reserves * sol_after_fee /
          (curve.virtual_sol_reserves + sol_after_fee)
        min (tokens_out % U64) curve.real_token_reserves

/-- `get_sol_for_tokens` (Quote B, buy inverse). `u64::MAX` is `U64 - 1`. -/
def get_sol_for_tokens (global : Global) (bonding_curve : Option BondingCurve)
    (token_amount : Nat) : Nat :=
  if token_amount = 0 then 0
  else
    let curve := (resolve_curve global bonding_curve).1
    let is_new := (resolve_curve global bonding_curve).2
    if curve.virtual_token_reserves = 0 then 0
    else
      let min_amount := min token_amount curve.real_token_reserves
      let denominator := curve.virtual_token_reserves - min_amount
      if denominator = 0 then U64 - 1
      else
        let sol_cost :=
          (curve.virtual_sol_reserves * min_amount / denominator + 1) % U64
        (sol_cost + get_fee global curve sol_cost is_new) % U64

/-- `get_sol_from_tokens` (Quote C, sell). -/
def get_sol_from_tokens (global : Global) (bonding_curve : Option BondingCurve)
    (token_amount : Nat) : Nat :=
  if token_amount = 0 then 0
  else
    let curve := (resolve_curve global bonding_curve).1
    let is_new := (resolve_curve global bonding_curve).2
    if curve.virtual_token_reserves = 0 ∨ curve.virtual_sol_reserves = 0 then 0
    else
      let sol_out := curve.virtual_sol_reserves * token_amount /
        (curve.virtual_token_reserves + token_amount) % U64
      let fee := get_fee global curve sol_out is_new
      sol_out - fee

/-- Little-endian decoding of a byte list, as `u64::from_le_bytes` does on
the 8-byte slice handed to it. -/
def le_bytes_to_nat : List Nat → Nat
  | [] => 0
  | b :: rest => b + 256 * le_bytes_to_nat rest

/-- Reading `u64::from_le_bytes(data[off..off+8])`. -/
def read_u64_le (data : List Nat) (off : Nat) : Nat :=
  le_bytes_to_nat ((data.drop off).take 8)

/-- `parse_bonding_curve`: decode the fixed 81-byte account layout. -/
def parse_bonding_curve (data : List Nat) : Except String BondingCurve :=
  if data.length < 81 then
    Except.error ("Bonding curve data too short: " ++ toString data.length
      ++ " bytes")
  else
    Except.ok
      { virtual_token_reserves := read_u64_le data 8
        virtual_sol_reserves := read_u64_le data 16
        real_token_reserves := read_u64_le data 24
        real_sol_reserves := read_u64_le data 32
        token_total_supply := read_u64_le data 40
        complete := data.getD 48 0 != 0
        creator := (data.drop 49).take 32 }

/-- The pure computation inside `quote_sell` (Quote D): gross constant-product
sell amount, fee on the gross amount with `is_new = false` and the default
global, returning `(net_sol, fee)`. Runs on the curve decoded from the
fetched account. Modelled checked-only elsewhere for the division; this total
version uses Nat division (0 on zero denominator, where Rust would panic —
claim C1 treats that case through the checked model). -/
def quote_sell_calc (bonding_curve : BondingCurve) (token_amount : Nat) :
    Nat × Nat :=
  let global := Global.def6
  let gross_sol := bonding_curve.virtual_sol_reserves * token_amount /
    (bonding_curve.virtual_token_reserves + token_amount) % U64
  let fee := get_fee global bonding_curve gross_sol false
  (gross_sol - fee, fee)

/-- Specification-side ceiling: `ceil(n / m)` written independently of the
source's `(n + m - 1) / m` trick, for comparing the two. -/
def ceil_spec (n m : Nat) : Nat := n / m + if n % m = 0 then 0 else 1

/-- 2^128, the u128 overflow bound (as a literal). -/
def U128 : Nat := 340282366920938463463374607431768211456

/-- Checked `ceil_div`: `none` when the u128 addition `a + b` would
overflow, or when `b = 0` (division by zero). -/
def checked_ceil_div (a b : Nat) : Option Nat :=
  if b = 0 then none
  else if U128 ≤ a + b then none
  else some ((a + b - 1) / b)

/-- Checked `compute_fee`: additionally `none` when the final `as u64`
narrowing would lose bits. The u128 product `amount * fee_basis_points`
cannot overflow for u64 inputs, being < 2^128. -/
def checked_compute_fee (amount fee_basis_points : Nat) : Option Nat :=
  (checked_ceil_div (amount * fee_basis_points) 10000).bind fun v =>
    if v < U64 then some v else none

/-- Checked `get_fee`: `none` when either `compute_fee` fails or the u64
addition `platform_fee + creator_fee` overflows. -/
def checked_get_fee (global : Global) (bonding_curve : BondingCurve)
    (amount : Nat) (is_new_bonding_curve : Bool) : Option Nat :=
  (checked_compute_fee amount global.fee_basis_points).bind fun platform_fee =>
    (if is_new_bonding_curve = true ∨ bonding_curve.creator ≠ Pubkey.def32
        then checked_compute_fee amount global.creator_fee_basis_points
        else some 0).bind fun creator_fee =>
      if platform_fee + creator_fee < U64 then some (platform_fee + creator_fee)
      else none

/-- Checked `get_tokens_for_sol`: `none` exactly where the Rust code would
divide by zero, overflow a u64 addition, or lose bits at an `as u64` cast.
The u128 product and the u128 addition in the constant-product formula
cannot overflow for u64 operands. -/
def checked_get_tokens_for_sol (global : Global)
    (bonding_curve : Option BondingCurve) (sol_amount : Nat) : Option Nat :=
  if sol_amount = 0 then some 0
  else
    let curve := (resolve_curve global bonding_curve).1
    let is_new := (resolve_curve global bonding_curve).2
    if curve.virtual_token_reserves = 0 then some 0
    else
      (checked_get_fee global curve sol_amount is_new).bind fun fee =>
        let sol_after_fee := sol_amount - fee
        if sol_after_fee = 0 then some 0
        else
          let denom := curve.virtual_sol_reserves + sol_after_fee
          if denom = 0 then none
          else
            let tokens_out := curve.virtual_token_reserves * sol_after_fee / denom
            if tokens_out < U64 then
              some (min tokens_out curve.real_token_reserves)
            else none

/-- Checked `get_sol_for_tokens`. -/
def checked_get_sol_for_tokens (global : Global)
    (bonding_curve : Option BondingCurve) (token_amount : Nat) : Option Nat :=
  if token_amount = 0 then some 0
  else
    let curve := (resolve_curve global bonding_curve).1
    let is_new := (resolve_curve global bonding_curve).2
    if curve.virtual_token_reserves = 0 then some 0
    else
      let min_amount := min token_amount curve.real_token_reserves
      let denominator := curve.virtual_token_reserves - min_amount
      if denominator = 0 then some (U64 - 1)
      else
        let sol_cost := curve.virtual_sol_reserves * min_amount / denominator + 1
        if sol_cost < U64 then
          (checked_get_fee global curve sol_cost is_new).bind fun fee =>
            if sol_cost + fee < U64 then some (sol_cost + fee) else none
        else none

/-- Checked `get_sol_from_tokens`. -/
def checked_get_sol_from_tokens (global : Global)
    (bonding_curve : Option BondingCurve) (token_amount : Nat) : Option Nat :=
  if token_amount = 0 then some 0
  else
    let curve := (resolve_curve global bonding_curve).1
    let is_new := (resolve_curve global bonding_curve).2
    if curve.virtual_token_reserves = 0 ∨ curve.virtual_sol_reserves = 0 then
      some 0
    else
      let denom := curve.virtual_token_reserves + token_amount
      if denom = 0 then none
      else
        let sol_out := curve.virtual_sol_reserves * token_amount / denom
        if sol_out < U64 then
          (checked_get_fee global curve sol_out is_new).bind fun fee =>
            some (sol_out - fee)
        else none

/-- Checked gross sell quote of `quote_sell`: the constant-product division
has NO zero-amount or migrated-curve guard in the source, so
`virtual_token_reserves + token_amount = 0` reaches a u128 division by
zero. -/
def checked_quote_sell (bonding_curve : BondingCurve) (token_amount : Nat) :
    Option (Nat × Nat) :=
  let global := Global.def6
  let denom := bonding_curve.virtual_token_reserves + token_amount
  if denom = 0 then none
  else
    let gross_sol := bonding_curve.virtual_sol_reserves * token_amount / denom
    if gross_sol < U64 then
      (checked_get_fee global bonding_curve gross_sol false).bind fun fee =>
        some (gross_sol - fee, fee)
    else none

/-- The untruncated u128 `sol_cost` intermediate of `get_sol_for_tokens`
(Quote B): gross constant-product cost before the `as u64` cast and before
fees. Used to state when Quote B stays within u64. -/
def quote_b_gross_cost (g : Global) (o : Option BondingCurve) (t : Nat) :
    Nat :=
  (resolve_curve g o).1.virtual_sol_reserves
      * min t (resolve_curve g o).1.real_token_reserves
    / ((resolve_curve g o).1.virtual_token_reserves
      - min t (resolve_curve g o).1.real_token_reserves) + 1

/-- Little-endian u64 encoder, inverse of `read_u64_le` on values < 2^64. -/
def u64_le_bytes (n : Nat) : List Nat :=
  [n % 256, n / 256 % 256, n / 65536 % 256, n / 16777216 % 256,
   n / 4294967296 % 256, n / 1099511627776 % 256,
   n / 281474976710656 % 256, n / 72057594037927936 % 256]

/-- A hand-constructed 81-byte account buffer for a curve state, following
the documented layout (8-byte discriminator, five u64 fields, the complete
flag byte, the 32-byte creator). -/
def encode_bonding_curve (c : BondingCurve) : List Nat :=
  List.replicate 8 0
  ++ (u64_le_bytes c.virtual_token_reserves
  ++ (u64_le_bytes c.virtual_sol_reserves
  ++ (u64_le_bytes c.real_token_reserves
  ++ (u64_le_bytes c.real_sol_reserves
  ++ (u64_le_bytes c.token_total_supply
  ++ ([if c.complete then 1 else 0]
  ++ c.creator))))))

/-- The reserve fields of a curve are genuine u64 values. -/
def BondingCurve.WfU64 (c : BondingCurve) : Prop :=
  c.virtual_token_reserves < U64 ∧ c.virtual_sol_reserves < U64 ∧
  c.real_token_reserves < U64 ∧ c.real_sol_reserves < U64 ∧
  c.token_total_supply < U64

instance (c : BondingCurve) : Decidable c.WfU64 := by
  unfold BondingCurve.WfU64; infer_instance

theorem ceil_div_10000_eq (n : Nat) : ceil_div n 10000 = ceil_spec n 10000 := by
  unfold ceil_div ceil_spec
  split <;> omega

theorem div_le_div_cross {a b c d : Nat} (hb : 0 < b) (hd : 0 < d)
    (h : a * d ≤ c * b) : a / b ≤ c / d := by
  rw [Nat.le_div_iff_mul_le hd]
  have h1 : a / b * d * b ≤ c * b := by
    calc a / b * d * b = a / b * b * d := by ring
    _ ≤ a * d := Nat.mul_le_mul_right d (Nat.div_mul_le_self a b)
    _ ≤ c * b := h
  exact Nat.le_of_mul_le_mul_right h1 hb

/-- Claim C7: the token amount returned by Quote A (`get_tokens_for_sol`) is
always at most the curve's `real_token_reserves` (for an absent curve, those
of the synthesized fresh curve). -/
theorem c7_quote_a_capped_by_real_reserves (g : Global)
    (o : Option BondingCurve) (a : Nat) :
    get_tokens_for_sol g o a ≤ (resolve_curve g o).1.real_token_reserves := by
  simp only [get_tokens_for_sol]
  split_ifs <;> first
    | exact Nat.zero_le _
    | exact Nat.min_le_right _ _

/-- Claim C9: the `complete` flag has no effect on any of the three pricing
operations: two curves identical except in `complete` price identically. -/
theorem c9_complete_flag_has_no_effect (g : Global) (bc : BondingCurve)
    (b1 b2 : Bool) (a : Nat) :
    get_tokens_for_sol g (some { bc with complete := b1 }) a
      = get_tokens_for_sol g (some { bc with complete := b2 }) a ∧
    get_sol_for_tokens g (some { bc with complete := b1 }) a
      = get_sol_for_tokens g (some { bc with complete := b2 }) a ∧
    get_sol_from_tokens g (some { bc with complete := b1 }) a
      = get_sol_from_tokens g (some { bc with complete := b2 }) a := by
  obtain ⟨vt, vs, rt, rs, ts, cp, cr⟩ := bc
  exact ⟨rfl, rfl, rfl⟩

/-- Claim C10: Quote C (`get_sol_from_tokens`) never quotes out more SOL than
the virtual pool holds: its result is at most `virtual_sol_reserves`, and is
strictly below it whenever `virtual_sol_reserves > 0`. -/
theorem c10_sell_bounded_by_virtual_sol (g : Global)
    (o : Option BondingCurve) (t : Nat) :
    get_sol_from_tokens g o t
        ≤ (resolve_curve g o).1.virtual_sol_reserves ∧
    (0 < (resolve_curve g o).1.virtual_sol_reserves →
      get_sol_from_tokens g o t
        < (resolve_curve g o).1.virtual_sol_reserves) := by
  simp only [get_sol_from_tokens]
  split_ifs with h1 h2
  · exact ⟨Nat.zero_le _, fun h => h⟩
  · exact ⟨Nat.zero_le _, fun h => h⟩
  · push_neg at h2
    obtain ⟨hvt, hvs⟩ := h2
    have hpos : 0 < (resolve_curve g o).1.virtual_token_reserves + t :=
      Nat.lt_of_lt_of_le (Nat.pos_of_ne_zero hvt) (Nat.le_add_right _ _)
    have hlt : (resolve_curve g o).1.virtual_sol_reserves * t /
        ((resolve_curve g o).1.virtual_token_reserves + t)
        < (resolve_curve g o).1.virtual_sol_reserves := by
      rw [Nat.div_lt_iff_lt_mul hpos, Nat.mul_add]
      have hp : 0 < (resolve_curve g o).1.virtual_sol_reserves *
          (resolve_curve g o).1.virtual_token_reserves :=
        Nat.mul_pos (Nat.pos_of_ne_zero hvs) (Nat.pos_of_ne_zero hvt)
      omega
    have hmod : (resolve_curve g o).1.virtual_sol_reserves * t /
        ((resolve_curve g o).1.virtual_token_reserves + t) % U64
        < (resolve_curve g o).1.virtual_sol_reserves :=
      Nat.lt_of_le_of_lt (Nat.mod_le _ _) hlt
    exact ⟨Nat.le_of_lt (Nat.lt_of_le_of_lt (Nat.sub_le _ _) hmod),
      fun _ => Nat.lt_of_le_of_lt (Nat.sub_le _ _) hmod⟩

theorem c10_sell_bounded_by_virtual_sol_witness :
    0 < (resolve_curve Global.def6 none).1.virtual_sol_reserves ∧
    get_sol_from_tokens Global.def6 none 1000000000000
      < (resolve_curve Global.def6 none).1.virtual_sol_reserves :=
  ⟨by decide,
    (c10_sell_bounded_by_virtual_sol Global.def6 none 1000000000000).2
      (by decide)⟩

theorem le_bytes_u64_roundtrip (n : Nat) (h : n < U64) :
    le_bytes_to_nat (u64_le_bytes n) = n := by
  have h' : n < 18446744073709551616 := h
  simp only [u64_le_bytes, le_bytes_to_nat]
  omega

theorem take8_u64 (n : Nat) (post : List Nat) :
    List.take 8 (u64_le_bytes n ++ post) = u64_le_bytes n :=
  List.take_left' rfl

theorem read_u64_le_here (n : Nat) (post : List Nat) (h : n < U64) :
    read_u64_le (u64_le_bytes n ++ post) 0 = n := by
  unfold read_u64_le
  rw [List.drop_zero, take8_u64]
  exact le_bytes_u64_roundtrip n h

theorem encode_drop8 (c : BondingCurve) :
    (encode_bonding_curve c).drop 8
      = u64_le_bytes c.virtual_token_reserves
        ++ (u64_le_bytes c.virtual_sol_reserves
        ++ (u64_le_bytes c.real_token_reserves
        ++ (u64_le_bytes c.real_sol_reserves
        ++ (u64_le_bytes c.token_total_supply
        ++ ([if c.complete then 1 else 0]
        ++ c.creator))))) := by
  unfold encode_bonding_curve
  exact List.drop_left' rfl

theorem encode_drop16 (c : BondingCurve) :
    (encode_bonding_curve c).drop 16
      = u64_le_bytes c.virtual_sol_reserves
        ++ (u64_le_bytes c.real_token_reserves
        ++ (u64_le_bytes c.real_sol_reserves
        ++ (u64_le_bytes c.token_total_supply
        ++ ([if c.complete then 1 else 0]
        ++ c.creator)))) := by
  rw [show (16 : Nat) = 8 + 8 from rfl, ← List.drop_drop, encode_drop8]
  exact List.drop_left' rfl

theorem encode_drop24 (c : BondingCurve) :
    (encode_bonding_curve c).drop 24
      = u64_le_bytes c.real_token_reserves
        ++ (u64_le_bytes c.real_sol_reserves
        ++ (u64_le_bytes c.token_total_supply
        ++ ([if c.complete then 1 else 0]
        ++ c.creator))) := by
  rw [show (24 : Nat) = 16 + 8 from rfl, ← List.drop_drop, encode_drop16]
  exact List.drop_left' rfl

theorem encode_drop32 (c : BondingCurve) :
    (encode_bonding_curve c).drop 32
      = u64_le_bytes c.real_sol_reserves
        ++ (u64_le_bytes c.token_total_supply
        ++ ([if c.complete then 1 else 0]
        ++ c.creator)) := by
  rw [show (32 : Nat) = 24 + 8 from rfl, ← List.drop_drop, encode_drop24]
  exact List.drop_left' rfl

theorem encode_drop40 (c : BondingCurve) :
    (encode_bonding_curve c).drop 40
      = u64_le_bytes c.token_total_supply
        ++ ([if c.complete then 1 else 0]
        ++ c.creator) := by
  rw [show (40 : Nat) = 32 + 8 from rfl, ← List.drop_drop, encode_drop32]
  exact List.drop_left' rfl

theorem encode_drop48 (c : BondingCurve) :
    (encode_bonding_curve c).drop 48
      = [if c.complete then 1 else 0] ++ c.creator := by
  rw [show (48 : Nat) = 40 + 8 from rfl, ← List.drop_drop, encode_drop40]
  exact List.drop_left' rfl

theorem encode_drop49 (c : BondingCurve) :
    (encode_bonding_curve c).drop 49 = c.creator := by
  rw [show (49 : Nat) = 48 + 1 from rfl, ← List.drop_drop, encode_drop48]
  rfl

theorem encode_read8 (c : BondingCurve) (h : c.virtual_token_reserves < U64) :
    read_u64_le (encode_bonding_curve c) 8 = c.virtual_token_reserves := by
  unfold read_u64_le
  rw [encode_drop8, take8_u64]
  exact le_bytes_u64_roundtrip _ h

theorem encode_read16 (c : BondingCurve) (h : c.virtual_sol_reserves < U64) :
    read_u64_le (encode_bonding_curve c) 16 = c.virtual_sol_reserves := by
  unfold read_u64_le
  rw [encode_drop16, take8_u64]
  exact le_bytes_u64_roundtrip _ h

theorem encode_read24 (c : BondingCurve) (h : c.real_token_reserves < U64) :
    read_u64_le (encode_bonding_curve c) 24 = c.real_token_reserves := by
  unfold read_u64_le
  rw [encode_drop24, take8_u64]
  exact le_bytes_u64_roundtrip _ h

theorem encode_read32 (c : BondingCurve) (h : c.real_sol_reserves < U64) :
    read_u64_le (encode_bonding_curve c) 32 = c.real_sol_reserves := by
  unfold read_u64_le
  rw [encode_drop32, take8_u64]
  exact le_bytes_u64_roundtrip _ h

theorem encode_read40 (c : BondingCurve) (h : c.token_total_supply < U64) :
    read_u64_le (encode_bonding_curve c) 40 = c.token_total_supply := by
  unfold read_u64_le
  rw [encode_drop40, take8_u64]
  exact le_bytes_u64_roundtrip _ h

theorem encode_getD48 (c : BondingCurve) :
    (encode_bonding_curve c).getD 48 0 = (if c.complete then 1 else 0) := by
  rw [List.getD_eq_getElem?_getD,
    show (48 : Nat) = 48 + 0 from rfl, ← List.getElem?_drop, encode_drop48]
  simp

theorem encode_creator (c : BondingCurve) (h32 : c.creator.length = 32) :
    ((encode_bonding_curve c).drop 49).take 32 = c.creator := by
  rw [encode_drop49, ← h32, List.take_length]

/-- Claim C5: `parse_bonding_curve` fails exactly on buffers shorter than 81
bytes; on any buffer of length at least 81 it succeeds, and a
hand-constructed 81-byte buffer laid out little-endian at the documented
offsets round-trips every field of the curve state bit-exactly. -/
theorem c5_parse_bonding_curve_exact :
    (∀ data : List Nat,
      (∃ e, parse_bonding_curve data = Except.error e) ↔ data.length < 81) ∧
    (∀ c : BondingCurve, c.WfU64 → c.creator.length = 32 →
      parse_bonding_curve (encode_bonding_curve c) = Except.ok c) := by
  constructor
  · intro data
    unfold parse_bonding_curve
    split
    · rename_i h
      exact ⟨fun _ => h, fun _ => ⟨_, rfl⟩⟩
    · rename_i h
      constructor
      · rintro ⟨e, he⟩
        exact absurd he (by simp)
      · intro hlt
        exact absurd hlt h
  · intro c hwf h32
    obtain ⟨hvt, hvs, hrt, hrs, hts⟩ := hwf
    have hlen : 81 ≤ (encode_bonding_curve c).length := by
      simp [encode_bonding_curve, u64_le_bytes, h32]
    unfold parse_bonding_curve
    rw [if_neg (by omega)]
    refine congrArg Except.ok ?_
    have hc8 : ((encode_bonding_curve c).getD 48 0 != 0) = c.complete := by
      rw [encode_getD48]
      cases c.complete <;> rfl
    obtain ⟨vt, vs, rt, rs, ts, cp, cr⟩ := c
    rw [BondingCurve.mk.injEq]
    exact ⟨encode_read8 _ hvt, encode_read16 _ hvs, encode_read24 _ hrt,
      encode_read32 _ hrs, encode_read40 _ hts, hc8, encode_creator _ h32⟩

theorem c5_parse_bonding_curve_exact_witness :
    parse_bonding_curve (encode_bonding_curve
        (BondingCurve.mk 123456789 987654321012345 5555 7777 99999 true
          (List.replicate 31 7 ++ [9])))
      = Except.ok (BondingCurve.mk 123456789 987654321012345 5555 7777 99999
          true (List.replicate 31 7 ++ [9])) :=
  c5_parse_bonding_curve_exact.2
    (BondingCurve.mk 123456789 987654321012345 5555 7777 99999 true
      (List.replicate 31 7 ++ [9]))
    (by decide) (by decide)

theorem fee_ceil_le (f a : Nat) (hf : f ≤ 10000) :
    ceil_div (a * f) 10000 ≤ a := by
  unfold ceil_div
  have h1 : a * f ≤ a * 10000 := Nat.mul_le_mul_left a hf
  omega

theorem fee_lipschitz (f a b : Nat) (hf : f ≤ 10000) (hab : a ≤ b) :
    ceil_div (b * f) 10000 ≤ ceil_div (a * f) 10000 + (b - a) := by
  unfold ceil_div
  have h1 : b * f = a * f + (b - a) * f := by
    calc b * f = (a + (b - a)) * f := by rw [Nat.add_sub_cancel' hab]
    _ = a * f + (b - a) * f := Nat.add_mul _ _ _
  have h2 : (b - a) * f ≤ (b - a) * 10000 := Nat.mul_le_mul_left _ hf
  omega

theorem get_fee_platform_only (g : Global) (bc : BondingCurve) (a : Nat)
    (n : Bool) (hc : g.creator_fee_basis_points = 0)
    (hf : g.fee_basis_points ≤ 10000) (ha : a < U64) :
    get_fee g bc a n = ceil_div (a * g.fee_basis_points) 10000 := by
  have hle := fee_ceil_le g.fee_basis_points a hf
  have hlt : ceil_div (a * g.fee_basis_points) 10000 < U64 :=
    Nat.lt_of_le_of_lt hle ha
  have h0 : compute_fee a 0 = 0 := by simp [compute_fee, ceil_div]
  simp only [get_fee, hc]
  rw [h0, ite_self, Nat.add_zero]
  unfold compute_fee
  rw [Nat.mod_eq_of_lt hlt, Nat.mod_eq_of_lt hlt]

theorem constant_product_mono (v s1 s2 w : Nat) (h1 : 0 < s1) (hs : s1 ≤ s2) :
    v * s1 / (w + s1) ≤ v * s2 / (w + s2) := by
  apply div_le_div_cross (by omega) (by omega)
  have h2 : s1 * w ≤ s2 * w := Nat.mul_le_mul_right w hs
  calc v * s1 * (w + s2) = v * (s1 * w) + v * (s1 * s2) := by ring
  _ ≤ v * (s2 * w) + v * (s1 * s2) :=
      Nat.add_le_add_right (Nat.mul_le_mul_left v h2) _
  _ = v * s2 * (w + s1) := by ring

theorem div_mul_le_num (v s w : Nat) (h : 0 < w + s) : v * s / (w + s) ≤ v := by
  have h1 : v * s / (w + s) ≤ v / 1 := by
    apply div_le_div_cross h Nat.one_pos
    rw [Nat.mul_one, Nat.mul_add]
    exact Nat.le_add_left _ _
  simpa using h1

/-- Claim C4, counterexample: with fee rates 4000 + 4000 bps, the post-fee
input is not monotone (fee jumps by 2 between inputs 5 and 6), so Quote A at
input 6 returns 0 while at input 5 it returns 500000 tokens. -/
theorem c4_counterexample :
    get_tokens_for_sol (Global.mk 1000000 1 1000000 1000000 4000 4000) none 6
      < get_tokens_for_sol (Global.mk 1000000 1 1000000 1000000 4000 4000)
          none 5 := by decide

/-- Claim C4 (amended): holding parameters and curve fixed, Quote A and
Quote C are monotonically non-decreasing in their input amount, provided the
creator fee rate is 0 and the platform fee rate is at most 10000 bps (so the
total fee grows by at most 1 per unit of input; with two ceiling fees
stacking, as in the counterexample, monotonicity fails). -/
theorem c4_quotes_monotone (g : Global) (o : Option BondingCurve) (a b : Nat)
    (hc : g.creator_fee_basis_points = 0) (hf : g.fee_basis_points ≤ 10000)
    (hvt : (resolve_curve g o).1.virtual_token_reserves < U64)
    (hvs : (resolve_curve g o).1.virtual_sol_reserves < U64)
    (hab : a ≤ b) (hb : b < U64) :
    get_tokens_for_sol g o a ≤ get_tokens_for_sol g o b ∧
    get_sol_from_tokens g o a ≤ get_sol_from_tokens g o b := by
  rcases hrc : resolve_curve g o with ⟨cv, isn⟩
  simp only [hrc] at hvt hvs
  constructor
  · simp only [get_tokens_for_sol, hrc]
    by_cases ha0 : a = 0
    · rw [if_pos ha0]
      exact Nat.zero_le _
    rw [if_neg ha0, if_neg (show ¬ b = 0 by omega)]
    by_cases hv : cv.virtual_token_reserves = 0
    · rw [if_pos hv, if_pos hv]
    rw [if_neg hv, if_neg hv]
    have hfa : get_fee g cv a isn = ceil_div (a * g.fee_basis_points) 10000 :=
      get_fee_platform_only g cv a isn hc hf (by omega)
    have hfb : get_fee g cv b isn = ceil_div (b * g.fee_basis_points) 10000 :=
      get_fee_platform_only g cv b isn hc hf hb
    rw [hfa, hfb]
    have hl := fee_lipschitz g.fee_basis_points a b hf hab
    have hsab : a - ceil_div (a * g.fee_basis_points) 10000
        ≤ b - ceil_div (b * g.fee_basis_points) 10000 := by omega
    by_cases hsa : a - ceil_div (a * g.fee_basis_points) 10000 = 0
    · rw [if_pos hsa]
      exact Nat.zero_le _
    rw [if_neg hsa, if_neg (show ¬ b - ceil_div (b * g.fee_basis_points) 10000
      = 0 by omega)]
    have hm := constant_product_mono cv.virtual_token_reserves
      (a - ceil_div (a * g.fee_basis_points) 10000)
      (b - ceil_div (b * g.fee_basis_points) 10000)
      cv.virtual_sol_reserves (by omega) hsab
    have hb1 := div_mul_le_num cv.virtual_token_reserves
      (a - ceil_div (a * g.fee_basis_points) 10000)
      cv.virtual_sol_reserves (by omega)
    have hb2 := div_mul_le_num cv.virtual_token_reserves
      (b - ceil_div (b * g.fee_basis_points) 10000)
      cv.virtual_sol_reserves (by omega)
    rw [Nat.mod_eq_of_lt (by omega), Nat.mod_eq_of_lt (by omega)]
    exact min_le_min hm (le_refl _)
  · simp only [get_sol_from_tokens, hrc]
    by_cases ha0 : a = 0
    · rw [if_pos ha0]
      exact Nat.zero_le _
    rw [if_neg ha0, if_neg (show ¬ b = 0 by omega)]
    by_cases hv : cv.virtual_token_reserves = 0 ∨ cv.virtual_sol_reserves = 0
    · rw [if_pos hv, if_pos hv]
    rw [if_neg hv, if_neg hv]
    have hv1 : cv.virtual_token_reserves ≠ 0 := fun h => hv (Or.inl h)
    have hsoa := div_mul_le_num cv.virtual_sol_reserves a
      cv.virtual_token_reserves (by omega)
    have hsob := div_mul_le_num cv.virtual_sol_reserves b
      cv.virtual_token_reserves (by omega)
    have hm := constant_product_mono cv.virtual_sol_reserves a b
      cv.virtual_token_reserves (by omega) hab
    have hma : cv.virtual_sol_reserves * a /
        (cv.virtual_token_reserves + a) < U64 := by omega
    have hmb : cv.virtual_sol_reserves * b /
        (cv.virtual_token_reserves + b) < U64 := by omega
    rw [Nat.mod_eq_of_lt hma, Nat.mod_eq_of_lt hmb]
    have hfa := get_fee_platform_only g cv
      (cv.virtual_sol_reserves * a / (cv.virtual_token_reserves + a)) isn
      hc hf hma
    have hfb := get_fee_platform_only g cv
      (cv.virtual_sol_reserves * b / (cv.virtual_token_reserves + b)) isn
      hc hf hmb
    rw [hfa, hfb]
    have hl := fee_lipschitz g.fee_basis_points
      (cv.virtual_sol_reserves * a / (cv.virtual_token_reserves + a))
      (cv.virtual_sol_reserves * b / (cv.virtual_token_reserves + b)) hf hm
    omega

theorem c4_quotes_monotone_witness :
    get_tokens_for_sol (Global.mk 1073000000000000 30000000000
        793100000000000 1000000000000000 100 0) none 1000000000
      ≤ get_tokens_for_sol (Global.mk 1073000000000000 30000000000
        793100000000000 1000000000000000 100 0) none 2000000000 ∧
    get_sol_from_tokens (Global.mk 1073000000000000 30000000000
        793100000000000 1000000000000000 100 0) none 1000000000
      ≤ get_sol_from_tokens (Global.mk 1073000000000000 30000000000
        793100000000000 1000000000000000 100 0) none 2000000000 :=
  c4_quotes_monotone (Global.mk 1073000000000000 30000000000 793100000000000
      1000000000000000 100 0) none 1000000000 2000000000
    rfl (by decide) (by decide) (by decide) (by decide) (by decide)

theorem get_fee_zero (g : Global) (bc : BondingCurve) (a : Nat) (n : Bool)
    (hf : g.fee_basis_points = 0) (hc : g.creator_fee_basis_points = 0) :
    get_fee g bc a n = 0 := by
  have h0 : compute_fee a 0 = 0 := by simp [compute_fee, ceil_div]
  simp only [get_fee, hf, hc, h0, ite_self, Nat.add_zero, Nat.zero_mod]

/-- Claim C3, counterexample: with the default parameters (1% platform and
1% creator fee) and a fresh curve, Quote B for 10^12 tokens returns
28544777 lamports, but Quote A on 28544777 lamports deducts the fee from the
larger gross amount and yields fewer than 10^12 tokens: the round trip
under-delivers. -/
theorem c3_counterexample :
    get_tokens_for_sol Global.def6 none
        (get_sol_for_tokens Global.def6 none 1000000000000)
      < 1000000000000 := by decide

/-- Claim C3 (amended): the round trip Quote B then Quote A delivers at
least the requested amount provided both fee rates are zero (with non-zero
fees Quote A charges its fee on the gross cost, which undercuts the net
input, as the counterexample shows), the request does not exceed
`real_token_reserves`, is strictly below `virtual_token_reserves` (else
Quote B returns the unrelated sentinel), and the computed gross cost fits in
u64 (else the `as u64` cast truncates it). -/
theorem c3_roundtrip_overdelivers (g : Global) (o : Option BondingCurve)
    (t : Nat)
    (hf : g.fee_basis_points = 0) (hc : g.creator_fee_basis_points = 0)
    (hvt : (resolve_curve g o).1.virtual_token_reserves < U64)
    (hrt : t ≤ (resolve_curve g o).1.real_token_reserves)
    (hlt : t < (resolve_curve g o).1.virtual_token_reserves)
    (hcost : (resolve_curve g o).1.virtual_sol_reserves * t /
        ((resolve_curve g o).1.virtual_token_reserves - t) + 1 < U64) :
    t ≤ get_tokens_for_sol g o (get_sol_for_tokens g o t) := by
  rcases hrc : resolve_curve g o with ⟨cv, isn⟩
  simp only [hrc] at hvt hrt hlt hcost
  by_cases ht0 : t = 0
  · rw [ht0]
    exact Nat.zero_le _
  have hv0 : ¬ cv.virtual_token_reserves = 0 := by omega
  have hmin : min t cv.real_token_reserves = t := Nat.min_eq_left hrt
  have hfee : ∀ x, get_fee g cv x isn = 0 := fun x =>
    get_fee_zero g cv x isn hf hc
  have hB : get_sol_for_tokens g o t
      = cv.virtual_sol_reserves * t / (cv.virtual_token_reserves - t) + 1 := by
    simp only [get_sol_for_tokens, hrc]
    rw [if_neg ht0, if_neg hv0, hmin,
      if_neg (show ¬ cv.virtual_token_reserves - t = 0 by omega),
      Nat.mod_eq_of_lt hcost, hfee, Nat.add_zero, Nat.mod_eq_of_lt hcost]
  rw [hB]
  set c0 := cv.virtual_sol_reserves * t / (cv.virtual_token_reserves - t) + 1
    with hc0
  have hcne : ¬ c0 = 0 := by
    rw [hc0]
    exact Nat.succ_ne_zero _
  simp only [get_tokens_for_sol, hrc]
  rw [hfee c0, Nat.sub_zero, if_neg hcne, if_neg hv0, if_neg hcne]
  have htok_le := div_mul_le_num cv.virtual_token_reserves c0
    cv.virtual_sol_reserves (by omega)
  rw [Nat.mod_eq_of_lt (by omega)]
  refine le_min ?_ hrt
  rw [Nat.le_div_iff_mul_le
    (show 0 < cv.virtual_sol_reserves + c0 by omega)]
  have hkey : cv.virtual_sol_reserves * t
      < c0 * (cv.virtual_token_reserves - t) := by
    rw [hc0]
    exact (Nat.div_lt_iff_lt_mul (by omega)).mp (Nat.lt_succ_self _)
  have hd : cv.virtual_token_reserves
      = t + (cv.virtual_token_reserves - t) := by omega
  calc t * (cv.virtual_sol_reserves + c0)
      = cv.virtual_sol_reserves * t + t * c0 := by ring
  _ ≤ c0 * (cv.virtual_token_reserves - t) + t * c0 :=
      Nat.add_le_add_right (Nat.le_of_lt hkey) _
  _ = (t + (cv.virtual_token_reserves - t)) * c0 := by ring
  _ = cv.virtual_token_reserves * c0 := by rw [← hd]

theorem c3_roundtrip_overdelivers_witness :
    1000000000000 ≤ get_tokens_for_sol
      (Global.mk 1073000000000000 30000000000 793100000000000
        1000000000000000 0 0) none
      (get_sol_for_tokens
        (Global.mk 1073000000000000 30000000000 793100000000000
          1000000000000000 0 0) none 1000000000000) :=
  c3_roundtrip_overdelivers
    (Global.mk 1073000000000000 30000000000 793100000000000 1000000000000000
      0 0) none 1000000000000 rfl rfl (by decide) (by decide) (by decide)
    (by decide)

/-- Claim C2, counterexample: at `amount = 2^64 - 1`, `bps = 20000` the exact
ceiling is `2^65 - 2`, which does not fit in u64; the code's final `as u64`
cast truncates it to `2^64 - 2`, so the result is neither the exact ceiling
nor `>=` the exact floor. -/
theorem c2_counterexample :
    compute_fee (U64 - 1) 20000 ≠ ceil_spec ((U64 - 1) * 20000) 10000 ∧
    compute_fee (U64 - 1) 20000 < (U64 - 1) * 20000 / 10000 := by decide

/-- Claim C2 (amended): whenever the exact ceiling `ceil(amount*bps/10000)`
fits in u64 — in particular for every `bps ≤ 10000` — `compute_fee` returns
it exactly, and is then `>=` the floor; `compute_fee 0 bps = 0` and
`compute_fee amount 0 = 0` hold unconditionally. -/
theorem c2_fee_is_exact_ceiling :
    (∀ amount bps : Nat, ceil_spec (amount * bps) 10000 < U64 →
      compute_fee amount bps = ceil_spec (amount * bps) 10000 ∧
      amount * bps / 10000 ≤ compute_fee amount bps) ∧
    (∀ bps : Nat, compute_fee 0 bps = 0) ∧
    (∀ amount : Nat, compute_fee amount 0 = 0) := by
  refine ⟨fun amount bps h => ?_, fun bps => ?_, fun amount => ?_⟩
  · rw [compute_fee, ceil_div_10000_eq, Nat.mod_eq_of_lt h]
    exact ⟨rfl, Nat.le_add_right _ _⟩
  · simp [compute_fee, ceil_div]
  · simp [compute_fee, ceil_div]

theorem c2_fee_is_exact_ceiling_witness :
    ceil_spec (12345 * 250) 10000 < U64 ∧
    compute_fee 12345 250 = ceil_spec (12345 * 250) 10000 :=
  ⟨by decide, (c2_fee_is_exact_ceiling.1 12345 250 (by decide)).1⟩

/-- Claim C6, counterexample: on a curve with `virtual_token_reserves = 0`
and requested amount 0, the capped amount (0) equals
`virtual_token_reserves` (the saturating subtraction is 0), yet
`get_sol_for_tokens` returns 0 via its zero-amount guard, not `u64::MAX`. -/
theorem c6_counterexample :
    (BondingCurve.mk 0 5 0 0 0 false Pubkey.def32).virtual_token_reserves
      - min 0 (BondingCurve.mk 0 5 0 0 0 false Pubkey.def32).real_token_reserves
      = 0 ∧
    get_sol_for_tokens Global.def6
      (some (BondingCurve.mk 0 5 0 0 0 false Pubkey.def32)) 0 ≠ U64 - 1 := by
  decide

/-- Claim C6 (amended): whenever `virtual_token_reserves` is non-zero and the
requested amount capped at `real_token_reserves` reaches it (the saturating
subtraction gives 0), `get_sol_for_tokens` returns the sentinel
`u64::MAX = 2^64 - 1`. The original claim fails only on curves with
`virtual_token_reserves = 0`, where the earlier guards return 0 first. -/
theorem c6_drain_returns_sentinel (g : Global) (o : Option BondingCurve)
    (t : Nat)
    (h1 : (resolve_curve g o).1.virtual_token_reserves ≠ 0)
    (h2 : (resolve_curve g o).1.virtual_token_reserves
        ≤ min t (resolve_curve g o).1.real_token_reserves) :
    get_sol_for_tokens g o t = U64 - 1 := by
  simp only [get_sol_for_tokens]
  have ht : ¬ t = 0 := by
    intro h
    rw [h] at h2
    simp at h2
    omega
  rw [if_neg ht, if_neg h1, if_pos (by omega)]

theorem c6_drain_returns_sentinel_witness :
    (resolve_curve Global.def6
        (some (BondingCurve.mk 100 50 200 0 0 false Pubkey.def32))).1.virtual_token_reserves
      ≠ 0 ∧
    get_sol_for_tokens Global.def6
      (some (BondingCurve.mk 100 50 200 0 0 false Pubkey.def32)) 150
      = U64 - 1 :=
  ⟨by decide, c6_drain_returns_sentinel Global.def6
    (some (BondingCurve.mk 100 50 200 0 0 false Pubkey.def32)) 150
    (by decide) (by decide)⟩

/-- Claim C8, counterexample: with both fee rates at 10000 bps and
`amount = 2^64 - 1`, platform and creator fee are each `2^64 - 1`; their u64
sum wraps (release) or panics (debug), so the total is not the sum of the
two fees. -/
theorem c8_counterexample :
    get_fee (Global.mk 0 0 0 0 10000 10000)
        (new_bonding_curve (Global.mk 0 0 0 0 10000 10000)) (U64 - 1) true
      ≠ compute_fee (U64 - 1) 10000 + compute_fee (U64 - 1) 10000 := by decide

/-- Claim C8 (amended): whenever the platform fee plus the creator fee fits
in u64, the total fee is exactly the ceiling platform fee plus a creator fee
that equals `ceil(amount * creator_fee_basis_points / 10000)` when the curve
is freshly created or its creator differs from the all-zero default, and 0
otherwise. -/
theorem c8_fee_composition (g : Global) (bc : BondingCurve) (amount : Nat)
    (is_new : Bool)
    (h : ceil_spec (amount * g.fee_basis_points) 10000
        + ceil_spec (amount * g.creator_fee_basis_points) 10000 < U64) :
    get_fee g bc amount is_new
      = ceil_spec (amount * g.fee_basis_points) 10000
        + (if is_new = true ∨ bc.creator ≠ Pubkey.def32 then
            ceil_spec (amount * g.creator_fee_basis_points) 10000 else 0) := by
  simp only [get_fee, compute_fee, ceil_div_10000_eq]
  have hp : ceil_spec (amount * g.fee_basis_points) 10000 < U64 := by omega
  have hc : ceil_spec (amount * g.creator_fee_basis_points) 10000 < U64 := by
    omega
  split_ifs with hcond
  · rw [Nat.mod_eq_of_lt hp, Nat.mod_eq_of_lt hc, Nat.mod_eq_of_lt h]
  · rw [Nat.mod_eq_of_lt hp, Nat.add_zero, Nat.mod_eq_of_lt hp]

theorem c8_fee_composition_witness :
    ceil_spec (1000000 * Global.def6.fee_basis_points) 10000
      + ceil_spec (1000000 * Global.def6.creator_fee_basis_points) 10000
      < U64 ∧
    get_fee Global.def6 (new_bonding_curve Global.def6) 1000000 false
      = ceil_spec (1000000 * Global.def6.fee_basis_points) 10000
        + (if (false = true) ∨ (new_bonding_curve Global.def6).creator
              ≠ Pubkey.def32 then
            ceil_spec (1000000 * Global.def6.creator_fee_basis_points) 10000
          else 0) :=
  ⟨by decide, c8_fee_composition Global.def6 (new_bonding_curve Global.def6)
    1000000 false (by decide)⟩


theorem ceil_fee_lt (a f : Nat) (ha : a < U64) (hf : f ≤ 9999) :
    ceil_div (a * f) 10000 < U64 := by
  unfold ceil_div
  have h1 : a * f ≤ (U64 - 1) * 9999 := Nat.mul_le_mul (by omega) hf
  have hU : U64 = 18446744073709551616 := rfl
  omega

theorem compute_fee_lt_U64 (a f : Nat) : compute_fee a f < U64 := by
  unfold compute_fee
  exact Nat.mod_lt _ (by decide)

theorem checked_compute_fee_eq (a f : Nat) (ha : a < U64) (hf : f ≤ 9999) :
    checked_compute_fee a f = some (compute_fee a f) := by
  have hlt := ceil_fee_lt a f ha hf
  have hu128 : ¬ U128 ≤ a * f + 10000 := by
    have h1 : a * f ≤ (U64 - 1) * 9999 := Nat.mul_le_mul (by omega) hf
    have hU : U64 = 18446744073709551616 := rfl
    have hU2 : U128 = 340282366920938463463374607431768211456 := rfl
    omega
  have hstep : checked_ceil_div (a * f) 10000 = some (ceil_div (a * f) 10000)
      := by
    unfold checked_ceil_div ceil_div
    rw [if_neg (by decide : ¬ (10000 : Nat) = 0), if_neg hu128]
  unfold checked_compute_fee
  rw [hstep]
  simp only [Option.some_bind]
  rw [if_pos hlt]
  unfold compute_fee
  rw [Nat.mod_eq_of_lt hlt]

theorem checked_get_fee_eq (g : Global) (bc : BondingCurve) (a : Nat)
    (n : Bool) (ha : a < U64)
    (hfc : g.fee_basis_points + g.creator_fee_basis_points ≤ 9999) :
    checked_get_fee g bc a n = some (get_fee g bc a n) := by
  have hf : g.fee_basis_points ≤ 9999 := by omega
  have hcr : g.creator_fee_basis_points ≤ 9999 := by omega
  have hcf := checked_compute_fee_eq a g.fee_basis_points ha hf
  have hcc := checked_compute_fee_eq a g.creator_fee_basis_points ha hcr
  have hplt : compute_fee a g.fee_basis_points < U64 := compute_fee_lt_U64 a _
  have hsum : compute_fee a g.fee_basis_points
      + compute_fee a g.creator_fee_basis_points < U64 := by
    have hp2 : compute_fee a g.fee_basis_points
        = ceil_div (a * g.fee_basis_points) 10000 := by
      unfold compute_fee
      rw [Nat.mod_eq_of_lt (ceil_fee_lt a _ ha hf)]
    have hc2 : compute_fee a g.creator_fee_basis_points
        = ceil_div (a * g.creator_fee_basis_points) 10000 := by
      unfold compute_fee
      rw [Nat.mod_eq_of_lt (ceil_fee_lt a _ ha hcr)]
    rw [hp2, hc2]
    unfold ceil_div
    have hb2 : a * g.fee_basis_points + a * g.creator_fee_basis_points
        ≤ (U64 - 1) * 9999 := by
      have h3 : a * g.fee_basis_points + a * g.creator_fee_basis_points
          = a * (g.fee_basis_points + g.creator_fee_basis_points) := by ring
      rw [h3]
      exact Nat.mul_le_mul (by omega) hfc
    have hU : U64 = 18446744073709551616 := rfl
    omega
  unfold checked_get_fee
  rw [hcf]
  simp only [Option.some_bind]
  by_cases hcond : (n = true ∨ bc.creator ≠ Pubkey.def32)
  · rw [if_pos hcond, hcc]
    simp only [Option.some_bind]
    rw [if_pos hsum]
    simp only [get_fee]
    rw [if_pos hcond, Nat.mod_eq_of_lt hsum]
  · rw [if_neg hcond]
    simp only [Option.some_bind]
    rw [if_pos (show compute_fee a g.fee_basis_points + 0 < U64 by omega)]
    simp only [get_fee]
    rw [if_neg hcond, Nat.mod_eq_of_lt
      (show compute_fee a g.fee_basis_points + 0 < U64 by omega)]

/-- Claim C1, counterexample: the gross sell computation in `quote_sell`
has no zero-amount or migrated-curve guard, so on a curve with
`virtual_token_reserves = 0` and a sell amount of 0 the u128 division
`virtual_sol_reserves * 0 / (0 + 0)` divides by zero — a panic in Rust —
refuting totality of the four quote operations as claimed. -/
theorem c1_counterexample :
    checked_quote_sell (BondingCurve.mk 0 0 0 0 0 false Pubkey.def32) 0
      = none := by decide

/-- Claim C1 (amended): `get_tokens_for_sol` and `get_sol_from_tokens` reach
no division by zero, no overflowing addition and no lossy narrowing for any
u64 input whenever the curve's reserves are u64 values and the two fee rates
sum to at most 9999 bps (at 10000 bps and above the u64 addition in
`get_fee` can overflow, and `compute_fee`'s `as u64` cast can truncate);
`get_sol_for_tokens` additionally requires its gross u128 cost to fit in u64
before and after fees (otherwise its `as u64` cast truncates); the gross
quote of `quote_sell` additionally requires
`virtual_token_reserves + token_amount ≠ 0` (otherwise it divides by zero,
as the counterexample shows). -/
theorem c1_no_panic_under_bounds :
    (∀ (g : Global) (o : Option BondingCurve) (a : Nat), a < U64 →
      g.fee_basis_points + g.creator_fee_basis_points ≤ 9999 →
      (resolve_curve g o).1.virtual_token_reserves < U64 →
      (checked_get_tokens_for_sol g o a).isSome = true) ∧
    (∀ (g : Global) (o : Option BondingCurve) (t : Nat),
      g.fee_basis_points + g.creator_fee_basis_points ≤ 9999 →
      quote_b_gross_cost g o t < U64 →
      quote_b_gross_cost g o t
          + get_fee g (resolve_curve g o).1 (quote_b_gross_cost g o t)
            (resolve_curve g o).2 < U64 →
      (checked_get_sol_for_tokens g o t).isSome = true) ∧
    (∀ (g : Global) (o : Option BondingCurve) (t : Nat),
      g.fee_basis_points + g.creator_fee_basis_points ≤ 9999 →
      (resolve_curve g o).1.virtual_sol_reserves < U64 →
      (checked_get_sol_from_tokens g o t).isSome = true) ∧
    (∀ (bc : BondingCurve) (t : Nat), bc.virtual_sol_reserves < U64 →
      bc.virtual_token_reserves + t ≠ 0 →
      (checked_quote_sell bc t).isSome = true) := by
  refine ⟨?_, ?_, ?_, ?_⟩
  · intro g o a ha hfc hvt
    rcases hrc : resolve_curve g o with ⟨cv, isn⟩
    simp only [hrc] at hvt
    simp only [checked_get_tokens_for_sol, hrc]
    by_cases ha0 : a = 0
    · rw [if_pos ha0]
      rfl
    rw [if_neg ha0]
    by_cases hv : cv.virtual_token_reserves = 0
    · rw [if_pos hv]
      rfl
    rw [if_neg hv]
    rw [checked_get_fee_eq g cv a isn ha hfc]
    simp only [Option.some_bind]
    by_cases hs : a - get_fee g cv a isn = 0
    · rw [if_pos hs]
      rfl
    rw [if_neg hs,
      if_neg (show ¬ cv.virtual_sol_reserves + (a - get_fee g cv a isn) = 0
        by omega)]
    have htok := div_mul_le_num cv.virtual_token_reserves
      (a - get_fee g cv a isn) cv.virtual_sol_reserves (by omega)
    rw [if_pos (show cv.virtual_token_reserves * (a - get_fee g cv a isn) /
        (cv.virtual_sol_reserves + (a - get_fee g cv a isn)) < U64 by omega)]
    rfl
  · intro g o t hfc h1 h2
    rcases hrc : resolve_curve g o with ⟨cv, isn⟩
    simp only [quote_b_gross_cost, hrc] at h1 h2
    simp only [checked_get_sol_for_tokens, hrc]
    by_cases ht0 : t = 0
    · rw [if_pos ht0]
      rfl
    rw [if_neg ht0]
    by_cases hv : cv.virtual_token_reserves = 0
    · rw [if_pos hv]
      rfl
    rw [if_neg hv]
    by_cases hden : cv.virtual_token_reserves
        - min t cv.real_token_reserves = 0
    · rw [if_pos hden]
      rfl
    rw [if_neg hden, if_pos h1]
    rw [checked_get_fee_eq g cv _ isn h1 hfc]
    simp only [Option.some_bind]
    rw [if_pos h2]
    rfl
  · intro g o t hfc hvs
    rcases hrc : resolve_curve g o with ⟨cv, isn⟩
    simp only [hrc] at hvs
    simp only [checked_get_sol_from_tokens, hrc]
    by_cases ht0 : t = 0
    · rw [if_pos ht0]
      rfl
    rw [if_neg ht0]
    by_cases hv : cv.virtual_token_reserves = 0 ∨ cv.virtual_sol_reserves = 0
    · rw [if_pos hv]
      rfl
    rw [if_neg hv]
    have hv1 : ¬ cv.virtual_token_reserves = 0 := fun h => hv (Or.inl h)
    rw [if_neg (show ¬ cv.virtual_token_reserves + t = 0 by omega)]
    have hso := div_mul_le_num cv.virtual_sol_reserves t
      cv.virtual_token_reserves (by omega)
    rw [if_pos (show cv.virtual_sol_reserves * t /
        (cv.virtual_token_reserves + t) < U64 by omega)]
    rw [checked_get_fee_eq g cv _ isn
      (show cv.virtual_sol_reserves * t /
        (cv.virtual_token_reserves + t) < U64 by omega) hfc]
    simp only [Option.some_bind]
    rfl
  · intro bc t hvs hden
    simp only [checked_quote_sell]
    rw [if_neg hden]
    have hg := div_mul_le_num bc.virtual_sol_reserves t
      bc.virtual_token_reserves (by omega)
    rw [if_pos (show bc.virtual_sol_reserves * t /
        (bc.virtual_token_reserves + t) < U64 by omega)]
    rw [checked_get_fee_eq Global.def6 bc _ false
      (show bc.virtual_sol_reserves * t /
        (bc.virtual_token_reserves + t) < U64 by omega)
      (by decide)]
    simp only [Option.some_bind]
    rfl

theorem c1_no_panic_under_bounds_witness :
    (checked_get_tokens_for_sol Global.def6 none 1000000000).isSome = true ∧
    (checked_get_sol_for_tokens Global.def6 none 1000000000000).isSome
      = true ∧
    (checked_get_sol_from_tokens Global.def6 none 1000000000000).isSome
      = true ∧
    (checked_quote_sell (new_bonding_curve Global.def6)
        1000000000000).isSome = true :=
  ⟨c1_no_panic_under_bounds.1 Global.def6 none 1000000000
      (by decide) (by decide) (by decide),
   c1_no_panic_under_bounds.2.1 Global.def6 none 1000000000000
      (by decide) (by decide) (by decide),
   c1_no_panic_under_bounds.2.2.1 Global.def6 none 1000000000000
      (by decide) (by decide),
   c1_no_panic_under_bounds.2.2.2 (new_bonding_curve Global.def6)
      1000000000000 (by decide) (by decide)⟩
